import Mathlib

/-!
Verification development for the echo-tts repository: a shallow embedding of
its HTTP handler logic (voice registry CRUD over a blob store, TTS proxying)
together with proofs of the behavioural claims about it.

Python strings are modelled as Lean `String` (a list of Unicode code points),
and the Python string operations the handlers use (`strip`, `lower`,
`startswith`, `endswith`, slicing, `isalnum`) are defined below on the
underlying character lists. The blob store is modelled as a list of blobs with
pathnames, and every outbound call a handler makes (store listing, uploads,
batch deletes, the inference RPC, temp-file creation/unlink) is recorded as an
event so that temporal claims ("never invoked", "no uploads") are statable.
-/

namespace EchoTTS

/-! ## Python string primitives -/

/-- The ASCII whitespace characters stripped by Python `str.strip()`.
(Unicode whitespace is also stripped by Python; no non-ASCII whitespace occurs
in this development.) -/
def pyIsSpaceChar (c : Char) : Bool :=
  c = ' ' || c = '\t' || c = '\n' || c = '\x0d' || c = '\x0b' || c = '\x0c'

/-- Python `str.strip()` on the character list: drop whitespace from both ends. -/
def pyStripList (l : List Char) : List Char :=
  ((l.dropWhile pyIsSpaceChar).reverse.dropWhile pyIsSpaceChar).reverse

/-- Python `str.strip()`. -/
def pyStrip (s : String) : String := ⟨pyStripList s.data⟩

/-- Python `str.startswith(pfx)`. -/
def pyStartswith (s pfx : String) : Bool := pfx.data.isPrefixOf s.data

/-- Python `str.endswith(sfx)`. -/
def pyEndswith (s sfx : String) : Bool := sfx.data.isSuffixOf s.data

/-- Python slicing `s[n:]` (by code point). -/
def pyDrop (s : String) (n : Nat) : String := ⟨s.data.drop n⟩

/-- Python slicing `s[:n]` (by code point). -/
def pyTake (s : String) (n : Nat) : String := ⟨s.data.take n⟩

/-- Python `str.lower()` on one character. Exact on ASCII; the identity on
every other code point, which agrees with Python `str.lower` on all non-ASCII
characters appearing in this development (e.g. `'é'.lower() = 'é'`). -/
def pyLowerChar (c : Char) : Char :=
  if 65 ≤ c.toNat ∧ c.toNat ≤ 90 then Char.ofNat (c.toNat + 32) else c

/-- Python `str.lower()`: per-character lowering. (Python lowercases a string
character by character except for a handful of multi-character expansions,
none of which occur in this development.) -/
def pyLower (s : String) : String := ⟨s.data.map pyLowerChar⟩

/-- Partial model of Python `str.isalnum()` for one character: exact on ASCII
(decimal digits, upper- and lowercase letters); of the non-ASCII Unicode
alphanumerics, only the code points used in this development are tabulated
(`'é'`, U+00E9, Unicode category Ll, for which Python returns `True`). -/
def pyIsAlnumChar (c : Char) : Bool :=
  (48 ≤ c.toNat ∧ c.toNat ≤ 57) || (65 ≤ c.toNat ∧ c.toNat ≤ 90) ||
  (97 ≤ c.toNat ∧ c.toNat ≤ 122) || c = 'é'

/-- Truthiness of an optional string value in Python (`if x:`): `None` and
the empty string are falsy. -/
def optTruthy : Option String → Bool
  | some s => s ≠ ""
  | none => false

/-! ## JSON values -/

/-- A minimal JSON value model, enough for the metadata objects and response
bodies of this API. -/
inductive Json where
  | null : Json
  | str : String → Json
  | num : Nat → Json
  | bool : Bool → Json
  | arr : List Json → Json
  | obj : List (String × Json) → Json

/-- Python `dict.get(key)` on a JSON object: `none` for a missing key or a
non-object. -/
def Json.getField : Json → String → Option Json
  | .obj fields, k => fields.lookup k
  | _, _ => none

/-! ## HTTP responses -/

/-- A JSON-bodied HTTP response. -/
structure HttpResponse where
  status : Nat
  body : Json

/-- Model of `_utils.error_response` (and of the Flask
`jsonify({'error': message}), status` pattern): a JSON body of shape
`{"error": "<message>"}` with the given status code. -/
def error_response (status : Nat) (msg : String) : HttpResponse :=
  ⟨status, .obj [("error", .str msg)]⟩

/-! ## Auth gate -/

/-- The request headers consulted by the auth gate. `none` models an absent
header. -/
structure Headers where
  xApiKey : Option String
  authorization : Option String

/-- Model of `_utils.get_api_key_from_request`: the `X-API-Key` header when
present and non-empty, else the rest of a `Bearer `-prefixed `Authorization`
header, else nothing. -/
def get_api_key_from_request (h : Headers) : Option String :=
  if optTruthy h.xApiKey then h.xApiKey
  else
    let auth := h.authorization.getD ""
    if pyStartswith auth "Bearer " then some (pyDrop auth 7)
    else none

/-- Model of `_utils.verify_api_key`: allow when no secret is configured,
otherwise allow iff the extracted candidate equals the configured secret.
(Python's `provided_key == API_KEY` is `False` when `provided_key` is `None`.) -/
def verify_api_key (apiKey : String) (h : Headers) : Bool :=
  if apiKey = "" then true
  else get_api_key_from_request h == some apiKey

/-- Model of the Flask `get_api_key` in `api/index.py`: `X-API-Key` header,
then `Bearer` authorization, then the `api_key` query parameter
(`request.args.get('api_key')`, consulted for every request method). -/
def get_api_key (h : Headers) (queryApiKey : Option String) : Option String :=
  if optTruthy h.xApiKey then h.xApiKey
  else
    let auth := h.authorization.getD ""
    if pyStartswith auth "Bearer " then some (pyDrop auth 7)
    else queryApiKey

/-- Model of the Flask `require_auth` in `api/index.py`: `none` means the
request may proceed; `some r` is the 401 response to return. -/
def require_auth (apiKey : String) (h : Headers) (queryApiKey : Option String) :
    Option HttpResponse :=
  if apiKey = "" then none
  else if get_api_key h queryApiKey ≠ some apiKey then
    some (error_response 401 "Invalid or missing API key")
  else none

/-- Model of `check_auth` in `modal_app.py`: `none` means proceed; `some (s, m)`
models `raise HTTPException(s, m)`. Note the candidate order (Authorization
first, then `X-API-Key`) and the message differ from the other variants. -/
def check_auth (apiKey : String) (h : Headers) : Option (Nat × String) :=
  if apiKey = "" then none
  else
    let auth := h.authorization.getD ""
    let key := if pyStartswith auth "Bearer " then pyDrop auth 7 else h.xApiKey.getD ""
    if key ≠ apiKey then some (401, "Invalid API key") else none

/-! ## Blob store model

The Vercel blob store is modelled as a list of blobs. Listing filters by
pathname prefix; a PUT to a pathname overwrites any blob already stored at
that pathname; a batch delete removes the blobs with the given URLs. The URL
the store assigns to an uploaded blob is modelled as a function of its
pathname. -/

/-- A stored blob: pathname, store-assigned URL, content type, and content
(metadata objects hold JSON; audio objects are modelled as `Json.str` of
their bytes). -/
structure Blob where
  pathname : String
  url : String
  contentType : String
  content : Json

/-- The URL the store assigns to the blob uploaded at `path` (model of the
`url` field returned by `blob_put` and by listing). -/
def blobUrl (path : String) : String :=
  "https://blob.vercel-storage.com/" ++ path

/-- Model of `blob_list(prefix)`: the blobs whose pathname starts with the
prefix. -/
def blob_list (store : List Blob) (pfx : String) : List Blob :=
  store.filter (fun b => pyStartswith b.pathname pfx)

/-- Model of `blob_put(path, data, content_type)`: store the blob at `path`,
replacing any blob previously at that pathname. -/
def blob_put (store : List Blob) (path : String) (content : Json)
    (ctype : String) : List Blob :=
  store.filter (fun b => b.pathname ≠ path) ++ [⟨path, blobUrl path, ctype, content⟩]

/-- Model of `blob_delete(urls)`: remove every blob whose URL is listed. -/
def blob_delete (store : List Blob) (urls : List String) : List Blob :=
  store.filter (fun b => !(urls.contains b.url))

/-- The outbound calls a handler makes during one request, in order. -/
inductive Event where
  | listCall (pfx : String)
  | getCall (url : String)
  | putCall (path : String)
  | deleteCall (urls : List String)
  | inferCall (text : String) (audioPath : String)
  | tempCreate (path : String)
  | tempUnlink (path : String)
deriving DecidableEq

/-- Whether an event is a blob upload. -/
def Event.isPut : Event → Bool
  | .putCall _ => true
  | _ => false

/-- Whether an event is an invocation of the external inference service. -/
def Event.isInfer : Event → Bool
  | .inferCall _ _ => true
  | _ => false

/-- Whether an event is a batch delete. -/
def Event.isDeleteCall : Event → Bool
  | .deleteCall _ => true
  | _ => false

/-- Result of a registry handler: the HTTP response, the store state after
the request, and the outbound calls made. -/
structure StoreResult where
  resp : HttpResponse
  store : List Blob
  events : List Event

/-! ## Voice registry handlers -/

/-- Model of the id sanitization in `api/voices.py` (`do_POST`) and
`api/index.py` (`create_voice`):
`''.join(c for c in voice_id if c.isalnum() or c in '-_').lower()`. -/
def sanitize_voice_id (s : String) : String :=
  pyLower ⟨s.data.filter (fun c => pyIsAlnumChar c || c == '-' || c == '_')⟩

/-- Model of `original_filename.rsplit('.', 1)[-1].lower() if '.' in
original_filename else 'wav'`: the part after the last dot, lowercased, or
`"wav"` when the filename has no dot. -/
def pyExtension (s : String) : String :=
  if '.' ∈ s.data then pyLower ⟨(s.data.reverse.takeWhile (fun c => c != '.')).reverse⟩
  else "wav"

/-- The content-type table for accepted audio extensions. -/
def audio_content_types : List (String × String) :=
  [("wav", "audio/wav"), ("mp3", "audio/mpeg"), ("ogg", "audio/ogg"),
   ("flac", "audio/flac"), ("m4a", "audio/mp4"), ("aac", "audio/aac")]

/-- Model of `api/voices.py` `handler.do_POST` (voice creation; the Flask
`create_voice` in `api/index.py` is the same logic modulo the content-type
check and the 503 message). The multipart form is given already parsed:
`audio` is the uploaded file's bytes (`none` when the `audio` field is
missing), `filename` its filename (`""` models a falsy filename, defaulted
to `audio.wav`), and `idField`/`nameField`/`descField` the optional form
fields. `genUuid` is the value of `str(uuid.uuid4())`, `now` the
`datetime.utcnow().isoformat() + 'Z'` timestamp. `listRaises` models the
duplicate-check `blob_list` call raising (the handler swallows that
exception); `put1Fails`/`put2Fails` model the two `blob_put` calls raising,
in which case the outer handler returns the 500 error. -/
def do_POST_voices (apiKey : String) (h : Headers) (blobToken : Bool)
    (isMultipart : Bool) (audio : Option String) (filename : String)
    (idField nameField descField : Option String)
    (genUuid : String) (now : String)
    (store : List Blob) (listRaises : Bool)
    (put1Fails put2Fails : Option String) : StoreResult :=
  if ¬ verify_api_key apiKey h then
    ⟨error_response 401 "Invalid or missing API key", store, []⟩
  else if ¬ blobToken then
    ⟨error_response 503 "Storage not configured. Set BLOB_READ_WRITE_TOKEN.", store, []⟩
  else if ¬ isMultipart then
    ⟨error_response 400 "Content-Type must be multipart/form-data", store, []⟩
  else
    match audio with
    | none => ⟨error_response 400 "No audio file provided", store, []⟩
    | some audioData =>
      let original_filename := if filename = "" then "audio.wav" else filename
      let voice_id0 := idField.getD (pyTake genUuid 8)
      let name := nameField.getD voice_id0
      let description := descField.getD ""
      let voice_id := sanitize_voice_id voice_id0
      if voice_id = "" then
        ⟨error_response 400 "Invalid voice ID", store, []⟩
      else
        let pfx := "voices/" ++ voice_id ++ "."
        let conflict :=
          if listRaises then false
          else (blob_list store pfx).any (fun b => pyEndswith b.pathname ".json")
        let evs0 := [Event.listCall pfx]
        if conflict then
          ⟨error_response 409 ("Voice ID already exists: " ++ voice_id), store, evs0⟩
        else
          let ext0 := pyExtension original_filename
          let ext :=
            if ["wav", "mp3", "ogg", "flac", "m4a", "aac"].contains ext0 then ext0 else "wav"
          let audio_ct := (audio_content_types.lookup ext).getD "audio/wav"
          let audioPath := "voices/" ++ voice_id ++ "." ++ ext
          match put1Fails with
          | some msg =>
            ⟨error_response 500 ("Failed to create voice: " ++ msg), store,
             evs0 ++ [Event.putCall audioPath]⟩
          | none =>
            let store1 := blob_put store audioPath (.str audioData) audio_ct
            let audio_url := blobUrl audioPath
            let metaPath := "voices/" ++ voice_id ++ ".json"
            let metadata : Json := .obj [
              ("id", .str voice_id), ("name", .str name),
              ("description", .str description), ("created_at", .str now),
              ("audio_url", .str audio_url), ("file_size", .num audioData.data.length),
              ("original_filename", .str original_filename)]
            match put2Fails with
            | some msg =>
              ⟨error_response 500 ("Failed to create voice: " ++ msg), store1,
               evs0 ++ [Event.putCall audioPath, Event.putCall metaPath]⟩
            | none =>
              ⟨⟨201, .obj [("id", .str voice_id), ("name", .str name),
                  ("created_at", .str now),
                  ("message", .str "Voice registered successfully")]⟩,
               blob_put store1 metaPath metadata "application/json",
               evs0 ++ [Event.putCall audioPath, Event.putCall metaPath]⟩

/-- Model of `get_voice_id` in `api/voices/[id].py`:
`path.strip('/').split('/')`, then index 2 when at least three parts exist. -/
def pyStripSlashes (l : List Char) : List Char :=
  ((l.dropWhile (fun c => c == '/')).reverse.dropWhile (fun c => c == '/')).reverse

/-- Split a character list on `'/'` (Python `str.split('/')`: always returns
at least one part; consecutive separators yield empty parts). -/
def splitSlash : List Char → List (List Char)
  | [] => [[]]
  | c :: rest =>
    if c = '/' then [] :: splitSlash rest
    else
      match splitSlash rest with
      | [] => [[c]]
      | h :: t => (c :: h) :: t

/-- Model of `get_voice_id(path)`: the third path component, if any. -/
def get_voice_id (path : String) : Option String :=
  match splitSlash (pyStripSlashes path.data) with
  | _ :: _ :: x :: _ => some ⟨x⟩
  | _ => none

/-- Model of `api/voices/[id].py` `handler.do_GET` (get one voice): find the
metadata blob under the id's prefix and return its parsed JSON content
(`blob_get` followed by `json.loads` is modelled as reading the stored JSON
back). -/
def do_GET_voice (apiKey : String) (h : Headers) (blobToken : Bool)
    (path : String) (store : List Blob) : StoreResult :=
  if ¬ verify_api_key apiKey h then
    ⟨error_response 401 "Invalid or missing API key", store, []⟩
  else if ¬ blobToken then
    ⟨error_response 503 "Storage not configured", store, []⟩
  else if ¬ optTruthy (get_voice_id path) then
    ⟨error_response 400 "Voice ID required", store, []⟩
  else
    let v := (get_voice_id path).getD ""
    let pfx := "voices/" ++ v ++ "."
    match (blob_list store pfx).find? (fun b => pyEndswith b.pathname ".json") with
    | none => ⟨error_response 404 ("Voice not found: " ++ v), store, [.listCall pfx]⟩
    | some mb => ⟨⟨200, mb.content⟩, store, [.listCall pfx, .getCall mb.url]⟩

/-- Model of `api/voices/[id].py` `handler.do_DELETE` (delete a voice): list
everything under the id's prefix; 404 when nothing is there, otherwise delete
all matched blobs in one batch call. -/
def do_DELETE_voice (apiKey : String) (h : Headers) (blobToken : Bool)
    (path : String) (store : List Blob) : StoreResult :=
  if ¬ verify_api_key apiKey h then
    ⟨error_response 401 "Invalid or missing API key", store, []⟩
  else if ¬ blobToken then
    ⟨error_response 503 "Storage not configured", store, []⟩
  else if ¬ optTruthy (get_voice_id path) then
    ⟨error_response 400 "Voice ID required", store, []⟩
  else
    let v := (get_voice_id path).getD ""
    let pfx := "voices/" ++ v ++ "."
    let blobs := blob_list store pfx
    if blobs.isEmpty then
      ⟨error_response 404 ("Voice not found: " ++ v), store, [.listCall pfx]⟩
    else
      let urls := blobs.map (·.url)
      ⟨⟨200, .obj [("message", .str ("Voice deleted: " ++ v))]⟩,
       blob_delete store urls, [.listCall pfx, .deleteCall urls]⟩

/-- Model of `api/voices.py` `handler.do_GET` (list voices). The handler also
receives the request's query string; it never consults it for auth, which the
unused `_queryApiKey` parameter records. Each metadata blob is fetched and
projected; `metadata.get` of a missing key yields JSON null (`description`
defaults to `""`). -/
def do_GET_voices (apiKey : String) (h : Headers) (_queryApiKey : Option String)
    (blobToken : Bool) (store : List Blob) : StoreResult :=
  if ¬ verify_api_key apiKey h then
    ⟨error_response 401 "Invalid or missing API key", store, []⟩
  else if ¬ blobToken then
    ⟨⟨200, .obj [("voices", .arr []), ("note", .str "Storage not configured")]⟩, store, []⟩
  else
    let blobs := blob_list store "voices/"
    let metas := blobs.filter (fun b => pyEndswith b.pathname ".json")
    let voices := metas.map (fun b =>
      Json.obj [("id", (b.content.getField "id").getD .null),
                ("name", (b.content.getField "name").getD .null),
                ("created_at", (b.content.getField "created_at").getD .null),
                ("description", (b.content.getField "description").getD (.str ""))])
    ⟨⟨200, .obj [("voices", .arr voices)]⟩, store,
     [Event.listCall "voices/"] ++ metas.map (fun b => Event.getCall b.url)⟩

/-! ## TTS handler -/

/-- The possible behaviours of the external inference call and the subsequent
read of the generated file, from the proxy's point of view. -/
inductive InferBehavior where
  | raiseExc (msg : String)
  | noPath
  | readRaises (msg : String)
  | success (audioBytes : String)

/-- A TTS response: a JSON(-bodied) response or a binary audio response. -/
inductive TtsResp where
  | json (r : HttpResponse)
  | audio (bytes : String) (contentType : String) (disposition : String)

/-- Result of the TTS handler: the response, the outbound calls made, and the
temp-file lifecycle flags (whether a temporary audio file was created, and
whether it was unlinked by the end of the request). -/
structure TtsResult where
  resp : TtsResp
  events : List Event
  tempCreated : Bool
  tempDeleted : Bool

/-- Model of the `try ... finally` block of `api/tts.py` `do_POST` (lines
156-198): invoke the inference service, then — whatever the outcome — run the
`finally` clause, which unlinks the temp file when one was created. An
exception from the call or the file read propagates to the outer handler,
which converts it to the 500 `TTS generation failed` response; a falsy
generated path returns the 500 `No audio generated` response. `os.unlink` is
modelled as succeeding. -/
def tts_try (text2 audioPath : String) (infer : InferBehavior) (evs : List Event)
    (hasTemp : Bool) (tmpName : String) : TtsResult :=
  let evsCall := evs ++ [Event.inferCall text2 audioPath]
  let bodyResp : TtsResp :=
    match infer with
    | .raiseExc msg => .json (error_response 500 ("TTS generation failed: " ++ msg))
    | .noPath => .json (error_response 500 "No audio generated")
    | .readRaises msg => .json (error_response 500 ("TTS generation failed: " ++ msg))
    | .success bytes => .audio bytes "audio/wav" "attachment; filename=\"output.wav\""
  let evsFin := if hasTemp then evsCall ++ [Event.tempUnlink tmpName] else evsCall
  ⟨bodyResp, evsFin, hasTemp, hasTemp⟩

/-- Model of lines 142-198 of `api/tts.py` `do_POST`: normalize the text
(prepend `"[S1] "` unless the stripped text starts with `"[S"`), materialize
inline audio bytes to a temp file when present and non-empty (`if
audio_data:`; the temp path then overrides any resolved audio URL), and run
the guarded inference call. -/
def tts_generate (t : String) (audioData : Option String) (audioUrl : Option String)
    (tmpName : String) (infer : InferBehavior) (evs : List Event) : TtsResult :=
  let text2 := if pyStartswith (pyStrip t) "[S" then t else "[S1] " ++ t
  if optTruthy audioData then
    tts_try text2 tmpName infer (evs ++ [Event.tempCreate tmpName]) true tmpName
  else
    tts_try text2 (audioUrl.getD "") infer evs false tmpName

/-- Model of lines 133-137 of `api/tts.py` `do_POST`: read the resolved
metadata's `audio_url` field; `none` models a falsy value (missing key or
empty string), on which the handler returns the 500 `Voice has no audio URL`
response. (Metadata written by this API always stores `audio_url` as a
string.) -/
def resolve_audio_url (j : Json) : Option String :=
  match j.getField "audio_url" with
  | some (.str u) => if u = "" then none else some u
  | _ => none

/-- Outcome of resolving a `voice_id` against the store (lines 120-137 of
`api/tts.py`): no metadata blob under the prefix; a metadata blob (at the
given URL) whose `audio_url` is falsy; or the resolved audio URL. -/
inductive VoiceLookup where
  | notFound
  | noUrl (metaUrl : String)
  | ok (metaUrl : String) (audioUrl : String)

/-- Model of lines 120-137 of `api/tts.py` `do_POST`: list the blobs under
`voices/{voice_id}.`, take the first whose pathname ends in `.json`, fetch
and parse it, and read its `audio_url`. -/
def lookup_voice (store : List Blob) (v : String) : VoiceLookup :=
  match (blob_list store ("voices/" ++ v ++ ".")).find?
      (fun b => pyEndswith b.pathname ".json") with
  | none => .notFound
  | some mb =>
    match resolve_audio_url mb.content with
    | none => .noUrl mb.url
    | some u => .ok mb.url u

/-- Model of `api/tts.py` `handler.do_POST` (the Flask `tts` in
`api/index.py` is the same logic). The request body is given already parsed:
`text`, `voiceId` and `audioData` are the fields bound by the JSON/multipart
parsing (lines 67-113); `audioData` holds the decoded inline audio bytes.
`tmpName` is the name the OS gives the temporary file; `infer` the behaviour
of the external inference call. -/
def tts_do_POST (apiKey : String) (h : Headers) (gradioAvailable : Bool)
    (blobToken : Bool) (store : List Blob)
    (text : Option String) (voiceId : Option String) (audioData : Option String)
    (tmpName : String) (infer : InferBehavior) : TtsResult :=
  if ¬ verify_api_key apiKey h then
    ⟨.json (error_response 401 "Invalid or missing API key"), [], false, false⟩
  else if ¬ gradioAvailable then
    ⟨.json (error_response 503 "Gradio client not available"), [], false, false⟩
  else if ¬ optTruthy text then
    ⟨.json (error_response 400 "Text is required"), [], false, false⟩
  else
    let t := text.getD ""
    if optTruthy voiceId && blobToken then
      let v := voiceId.getD ""
      let pfx := "voices/" ++ v ++ "."
      match lookup_voice store v with
      | .notFound =>
        ⟨.json (error_response 404 ("Voice not found: " ++ v)), [.listCall pfx], false, false⟩
      | .noUrl metaUrl =>
        ⟨.json (error_response 500 ("Voice has no audio URL: " ++ v)),
         [.listCall pfx, .getCall metaUrl], false, false⟩
      | .ok metaUrl u =>
        tts_generate t audioData (some u) tmpName infer [.listCall pfx, .getCall metaUrl]
    else if ¬ optTruthy audioData then
      ⟨.json (error_response 400 "Either voice_id or audio must be provided"), [], false, false⟩
    else
      tts_generate t audioData none tmpName infer []

/-! ## Helper lemmas -/

/-- Converting a code point below the surrogate range to a character and back
is the identity. -/
theorem charToNat_ofNat {n : Nat} (hn : n < 55296) : (Char.ofNat n).toNat = n := by
  rw [Char.ofNat, dif_pos (Or.inl hn)]
  rfl

/-- Membership in the character class `[a-z0-9_-]` of the specification. -/
def isIdChar (c : Char) : Bool :=
  (97 ≤ c.toNat ∧ c.toNat ≤ 122) || (48 ≤ c.toNat ∧ c.toNat ≤ 57) || c = '-' || c = '_'

/-- Any ASCII character kept by the sanitization filter lowercases into
`[a-z0-9_-]`. -/
theorem pyLowerChar_isIdChar {c : Char} (hascii : c.toNat < 128)
    (hkeep : (pyIsAlnumChar c || c == '-' || c == '_') = true) :
    isIdChar (pyLowerChar c) = true := by
  simp only [pyIsAlnumChar, Bool.or_eq_true, decide_eq_true_eq, beq_iff_eq] at hkeep
  rcases hkeep with ((((h1 | h2) | h3) | h4) | h5) | h6
  · rw [pyLowerChar, if_neg (by omega)]
    simp only [isIdChar, Bool.or_eq_true, decide_eq_true_eq]
    omega
  · rw [pyLowerChar, if_pos (by omega)]
    simp only [isIdChar, Bool.or_eq_true, decide_eq_true_eq, charToNat_ofNat (by omega : c.toNat + 32 < 55296)]
    omega
  · rw [pyLowerChar, if_neg (by omega)]
    simp only [isIdChar, Bool.or_eq_true, decide_eq_true_eq]
    omega
  · subst h4
    exact absurd hascii (by decide)
  · subst h5
    decide
  · subst h6
    decide

/-! ## C1 -/

/-- C1, counterexample to the claim as stated: the identifier `"é"` (a single
non-ASCII character, for which Python `str.isalnum()` returns `True`) is kept
unchanged by sanitization, so the sanitized result is non-empty yet contains
a character outside `[a-z0-9_-]`, and Create proceeds to 201 instead of
rejecting or stripping it. -/
theorem C1_counterexample :
    sanitize_voice_id "é" = "é" ∧
    (sanitize_voice_id "é").data.all isIdChar = false ∧
    (do_POST_voices "" ⟨none, none⟩ true true (some "x") "a.wav" (some "é")
        none none "u" "now" [] false none none).resp.status = 201 := by
  refine ⟨by decide, by decide, rfl⟩

/-- C1 (amended): for ASCII identifiers, sanitization produces a string
containing only characters from `[a-z0-9_-]` (non-ASCII characters accepted
by Python `str.isalnum()`, such as `'é'`, survive sanitization); and whenever
the sanitized identifier is empty, Create fails with status 400 (`Invalid
voice ID`), leaves the store unchanged, and makes no outbound calls at all —
in particular it uploads nothing. -/
theorem C1_sanitize_and_empty_rejected :
    (∀ s : String, (∀ c ∈ s.data, c.toNat < 128) →
      (sanitize_voice_id s).data.all isIdChar = true) ∧
    (∀ (apiKey : String) (h : Headers) (audio filename : String)
        (idField nameField descField : Option String) (genUuid now : String)
        (store : List Blob) (listRaises : Bool) (put1Fails put2Fails : Option String),
      verify_api_key apiKey h = true →
      sanitize_voice_id (idField.getD (pyTake genUuid 8)) = "" →
      (do_POST_voices apiKey h true true (some audio) filename idField nameField
          descField genUuid now store listRaises put1Fails put2Fails).resp =
        error_response 400 "Invalid voice ID" ∧
      (do_POST_voices apiKey h true true (some audio) filename idField nameField
          descField genUuid now store listRaises put1Fails put2Fails).store = store ∧
      (do_POST_voices apiKey h true true (some audio) filename idField nameField
          descField genUuid now store listRaises put1Fails put2Fails).events = []) := by
  constructor
  · intro s hs
    simp only [sanitize_voice_id, pyLower, List.all_eq_true]
    intro c hc
    simp only [List.mem_map, List.mem_filter] at hc
    obtain ⟨b, ⟨hbmem, hbkeep⟩, rfl⟩ := hc
    exact pyLowerChar_isIdChar (hs b hbmem) hbkeep
  · intro apiKey h audio filename idField nameField descField genUuid now store
      listRaises put1Fails put2Fails hv hsan
    unfold do_POST_voices
    simp [hv, hsan]

/-- C1 witness: the amended theorem applied at concrete inputs — an ASCII
identifier sanitizes into `[a-z0-9_-]`, and an identifier sanitizing to the
empty string makes Create return 400 with no store change and no calls. -/
theorem C1_witness :
    (sanitize_voice_id "User ID_9!").data.all isIdChar = true ∧
    ((do_POST_voices "" ⟨none, none⟩ true true (some "x") "a.wav" (some "!!!")
        none none "u" "now" [] false none none).resp =
      error_response 400 "Invalid voice ID" ∧
     (do_POST_voices "" ⟨none, none⟩ true true (some "x") "a.wav" (some "!!!")
        none none "u" "now" [] false none none).store = [] ∧
     (do_POST_voices "" ⟨none, none⟩ true true (some "x") "a.wav" (some "!!!")
        none none "u" "now" [] false none none).events = []) :=
  ⟨C1_sanitize_and_empty_rejected.1 "User ID_9!" (by decide),
   C1_sanitize_and_empty_rejected.2 "" ⟨none, none⟩ "x" "a.wav" (some "!!!") none none
     "u" "now" [] false none none (by decide) (by decide)⟩

/-! ## C2 -/

/-- C2, counterexample to the claim as stated: the text `" [S1] hi"` does not
start with `"[S"` (it starts with a space), so the claim predicts it is
forwarded as `"[S1] " ++ " [S1] hi"`; but the code tests
`text.strip().startswith('[S')`, so it forwards the text unchanged. -/
theorem C2_counterexample :
    pyStartswith " [S1] hi" "[S" = false ∧
    (tts_do_POST "" ⟨none, none⟩ true false [] (some " [S1] hi") none (some "a")
        "/tmp/t.wav" (.success "out")).events =
      [Event.tempCreate "/tmp/t.wav", Event.inferCall " [S1] hi" "/tmp/t.wav",
       Event.tempUnlink "/tmp/t.wav"] ∧
    " [S1] hi" ≠ "[S1] " ++ " [S1] hi" :=
  ⟨by decide, rfl, by decide⟩

/-- Any inference call made by `tts_generate` either was already among the
incoming events or carries the normalized text. -/
theorem tts_generate_inferText (t : String) (audioData audioUrl : Option String)
    (tmpName : String) (infer : InferBehavior) (evs : List Event) (t2 p : String)
    (hmem : Event.inferCall t2 p ∈
      (tts_generate t audioData audioUrl tmpName infer evs).events) :
    Event.inferCall t2 p ∈ evs ∨
      t2 = (if pyStartswith (pyStrip t) "[S" then t else "[S1] " ++ t) := by
  unfold tts_generate tts_try at hmem
  repeat any_goals split at hmem
  all_goals simp_all
  all_goals tauto

/-- C2 (amended): the text forwarded to the inference service is the original
text when the original text STRIPPED OF SURROUNDING WHITESPACE starts with
`"[S"`, and `"[S1] "` prepended to the original text otherwise. -/
theorem C2_text_normalization :
    ∀ (apiKey : String) (h : Headers) (gradio blobToken : Bool) (store : List Blob)
      (text voiceId audioData : Option String) (tmpName : String)
      (infer : InferBehavior) (t2 p : String),
      Event.inferCall t2 p ∈ (tts_do_POST apiKey h gradio blobToken store text
          voiceId audioData tmpName infer).events →
      t2 = (if pyStartswith (pyStrip (text.getD "")) "[S" then text.getD ""
            else "[S1] " ++ text.getD "") := by
  intro apiKey h gradio blobToken store text voiceId audioData tmpName infer t2 p hmem
  unfold tts_do_POST at hmem
  repeat any_goals split at hmem
  any_goals simp_all
  · rcases hl : lookup_voice store (voiceId.getD "") with _ | mu | ⟨mu, u⟩ <;> rw [hl] at hmem
    · simp at hmem
    · simp at hmem
    · rcases tts_generate_inferText _ _ _ _ _ _ _ _ hmem with hin | ht2
      · simp at hin
      · exact ht2
  · rcases tts_generate_inferText _ _ _ _ _ _ _ _ hmem with hin | ht2
    · simp at hin
    · exact ht2

/-- C2 witness: the amended theorem applied at a concrete run — text not
starting (even after stripping) with `"[S"` is forwarded with the `"[S1] "`
marker prepended. -/
theorem C2_witness :
    "[S1] hello" = (if pyStartswith (pyStrip ((some "hello").getD "")) "[S"
        then (some "hello").getD "" else "[S1] " ++ (some "hello").getD "") :=
  C2_text_normalization "" ⟨none, none⟩ true false [] (some "hello") none (some "a")
    "/tmp/t.wav" (.success "out") "[S1] hello" "/tmp/t.wav" (by decide)

/-! ## C3 -/

/-- When no blob under the voice's prefix has a `.json` pathname, voice
lookup reports not-found. -/
theorem lookup_voice_notFound (store : List Blob) (v : String)
    (hnometa : ∀ b ∈ store, pyStartswith b.pathname ("voices/" ++ v ++ ".") = true →
      pyEndswith b.pathname ".json" = false) :
    lookup_voice store v = .notFound := by
  unfold lookup_voice
  have hfind : (blob_list store ("voices/" ++ v ++ ".")).find?
      (fun b => pyEndswith b.pathname ".json") = none := by
    rw [List.find?_eq_none]
    intro b hb
    simp only [blob_list, List.mem_filter] at hb
    simp [hnometa b hb.1 hb.2]
  rw [hfind]

/-- C3 (confirmed): a TTS request with a (non-empty) `voice_id` for which no
metadata object exists in the (configured) store returns 404 `Voice not
found`, and no inference call occurs during the request. -/
theorem C3_tts_unknown_voice :
    ∀ (apiKey : String) (h : Headers) (store : List Blob) (t v : String)
      (audioData : Option String) (tmpName : String) (infer : InferBehavior),
      verify_api_key apiKey h = true → t ≠ "" → v ≠ "" →
      (∀ b ∈ store, pyStartswith b.pathname ("voices/" ++ v ++ ".") = true →
        pyEndswith b.pathname ".json" = false) →
      (tts_do_POST apiKey h true true store (some t) (some v) audioData
          tmpName infer).resp = .json (error_response 404 ("Voice not found: " ++ v)) ∧
      (tts_do_POST apiKey h true true store (some t) (some v) audioData
          tmpName infer).events.all (fun e => !e.isInfer) = true := by
  intro apiKey h store t v audioData tmpName infer hv ht hne hnometa
  have hlook := lookup_voice_notFound store v hnometa
  unfold tts_do_POST
  simp [hv, hlook, optTruthy, ht, hne, Event.isInfer]

/-- C3 witness: the theorem applied to a concrete store holding only an audio
blob for a different voice. -/
theorem C3_witness :
    (tts_do_POST "" ⟨none, none⟩ true true
        [⟨"voices/alice.wav", "u1", "audio/wav", .str "x"⟩]
        (some "Hello") (some "bob") none "/tmp/t.wav" (.success "out")).resp =
      .json (error_response 404 ("Voice not found: " ++ "bob")) ∧
    (tts_do_POST "" ⟨none, none⟩ true true
        [⟨"voices/alice.wav", "u1", "audio/wav", .str "x"⟩]
        (some "Hello") (some "bob") none "/tmp/t.wav" (.success "out")).events.all
      (fun e => !e.isInfer) = true :=
  C3_tts_unknown_voice "" ⟨none, none⟩
    [⟨"voices/alice.wav", "u1", "audio/wav", .str "x"⟩] "Hello" "bob" none
    "/tmp/t.wav" (.success "out") (by decide) (by decide) (by decide)
    (by intro b hb hpre; simp at hb; subst hb; decide)

/-! ## C4 -/

/-- C4 (confirmed): on every TTS request that supplies inline audio bytes,
the temporary file is deleted by the end of the request exactly when it was
created — across the success, failure-return and exception outcomes of the
inference call alike. -/
theorem C4_temp_cleanup :
    ∀ (apiKey : String) (h : Headers) (gradio blobToken : Bool) (store : List Blob)
      (text voiceId : Option String) (d : String) (tmpName : String)
      (infer : InferBehavior),
      (tts_do_POST apiKey h gradio blobToken store text voiceId (some d)
          tmpName infer).tempDeleted =
        (tts_do_POST apiKey h gradio blobToken store text voiceId (some d)
          tmpName infer).tempCreated := by
  intro apiKey h gradio blobToken store text voiceId d tmpName infer
  unfold tts_do_POST tts_generate tts_try
  repeat any_goals split
  all_goals try rfl
  all_goals dsimp only
  all_goals rcases lookup_voice store (voiceId.getD "") with _ | mu | ⟨mu, u⟩ <;> rfl

/-! ## C5 -/

/-- A concatenation starts with its first part. -/
theorem pyStartswith_append (s t : String) : pyStartswith (s ++ t) s = true := by
  simp [pyStartswith, String.data_append]

/-- A concatenation ends with its second part. -/
theorem pyEndswith_append (s t : String) : pyEndswith (s ++ t) t = true := by
  simp [pyEndswith, String.data_append]

/-- C5 (confirmed): a Create request whose sanitized id already has a
metadata object in the store returns 409 `Voice ID already exists`, leaves
the store unchanged, and performs no uploads. -/
theorem C5_create_conflict :
    ∀ (apiKey : String) (h : Headers) (audio filename : String)
      (idField nameField descField : Option String) (genUuid now : String)
      (store : List Blob) (mb : Blob) (put1Fails put2Fails : Option String)
      (sid : String),
      verify_api_key apiKey h = true →
      sanitize_voice_id (idField.getD (pyTake genUuid 8)) = sid → sid ≠ "" →
      mb ∈ store → mb.pathname = "voices/" ++ sid ++ ".json" →
      (do_POST_voices apiKey h true true (some audio) filename idField nameField
          descField genUuid now store false put1Fails put2Fails).resp =
        error_response 409 ("Voice ID already exists: " ++ sid) ∧
      (do_POST_voices apiKey h true true (some audio) filename idField nameField
          descField genUuid now store false put1Fails put2Fails).store = store ∧
      (do_POST_voices apiKey h true true (some audio) filename idField nameField
          descField genUuid now store false put1Fails put2Fails).events.all
        (fun e => !e.isPut) = true := by
  intro apiKey h audio filename idField nameField descField genUuid now store mb
    put1Fails put2Fails sid hv hsid hne hmem hpath
  have hdot : ("." : String) ++ "json" = ".json" := by decide
  have hconflict : (blob_list store ("voices/" ++ sid ++ ".")).any
      (fun b => pyEndswith b.pathname ".json") = true := by
    rw [List.any_eq_true]
    refine ⟨mb, ?_, ?_⟩
    · simp only [blob_list, List.mem_filter]
      refine ⟨hmem, ?_⟩
      rw [hpath, ← hdot, ← String.append_assoc]
      exact pyStartswith_append ("voices/" ++ sid ++ ".") "json"
    · rw [hpath]
      exact pyEndswith_append ("voices/" ++ sid) ".json"
  unfold do_POST_voices
  simp [hv, hsid, hne, hconflict, Event.isPut]

/-- C5 witness: the theorem applied to a store already holding a metadata
object for the id `alice`. -/
theorem C5_witness :
    (do_POST_voices "" ⟨none, none⟩ true true (some "x") "a.wav" (some "alice")
        none none "u" "now"
        [⟨"voices/alice.json", "u2", "application/json", .obj []⟩] false
        none none).resp = error_response 409 ("Voice ID already exists: " ++ "alice") ∧
    (do_POST_voices "" ⟨none, none⟩ true true (some "x") "a.wav" (some "alice")
        none none "u" "now"
        [⟨"voices/alice.json", "u2", "application/json", .obj []⟩] false
        none none).store = [⟨"voices/alice.json", "u2", "application/json", .obj []⟩] ∧
    (do_POST_voices "" ⟨none, none⟩ true true (some "x") "a.wav" (some "alice")
        none none "u" "now"
        [⟨"voices/alice.json", "u2", "application/json", .obj []⟩] false
        none none).events.all (fun e => !e.isPut) = true :=
  C5_create_conflict "" ⟨none, none⟩ "x" "a.wav" (some "alice") none none "u" "now"
    [⟨"voices/alice.json", "u2", "application/json", .obj []⟩]
    ⟨"voices/alice.json", "u2", "application/json", .obj []⟩ none none "alice"
    (by decide) (by decide) (by decide) (List.mem_singleton.mpr rfl) (by decide)

/-! ## C6 -/

/-- C6 (confirmed): deleting a voice id with no objects under its prefix
returns 404 and changes nothing; deleting one with objects present issues
exactly the two calls list-then-batch-delete (one batch call naming every
matched object's URL), after which no object remains under the prefix and a
Get of the same id returns 404. -/
theorem C6_delete :
    ∀ (apiKey : String) (h : Headers) (path : String) (store : List Blob) (v : String),
      verify_api_key apiKey h = true →
      get_voice_id path = some v → v ≠ "" →
      ((blob_list store ("voices/" ++ v ++ ".")).isEmpty = true →
        (do_DELETE_voice apiKey h true path store).resp =
          error_response 404 ("Voice not found: " ++ v) ∧
        (do_DELETE_voice apiKey h true path store).store = store) ∧
      ((blob_list store ("voices/" ++ v ++ ".")).isEmpty = false →
        (do_DELETE_voice apiKey h true path store).events =
          [Event.listCall ("voices/" ++ v ++ "."),
           Event.deleteCall ((blob_list store ("voices/" ++ v ++ ".")).map (·.url))] ∧
        (∀ b ∈ (do_DELETE_voice apiKey h true path store).store,
          pyStartswith b.pathname ("voices/" ++ v ++ ".") = false) ∧
        (do_GET_voice apiKey h true path
            ((do_DELETE_voice apiKey h true path store).store)).resp =
          error_response 404 ("Voice not found: " ++ v)) := by
  intro apiKey h path store v hv hgv hne
  constructor
  · intro hempty
    unfold do_DELETE_voice
    simp [hv, hgv, hne, optTruthy, hempty]
  · intro hnonempty
    have hres : do_DELETE_voice apiKey h true path store =
        ⟨⟨200, .obj [("message", .str ("Voice deleted: " ++ v))]⟩,
         blob_delete store ((blob_list store ("voices/" ++ v ++ ".")).map (·.url)),
         [Event.listCall ("voices/" ++ v ++ "."),
          Event.deleteCall ((blob_list store ("voices/" ++ v ++ ".")).map (·.url))]⟩ := by
      unfold do_DELETE_voice
      simp [hv, hgv, hne, optTruthy, hnonempty]
    have hgone : ∀ b ∈ blob_delete store ((blob_list store ("voices/" ++ v ++ ".")).map (·.url)),
        pyStartswith b.pathname ("voices/" ++ v ++ ".") = false := by
      intro b hb
      simp only [blob_delete, List.mem_filter, Bool.not_eq_true'] at hb
      by_contra hps
      rw [Bool.not_eq_false] at hps
      have hmem2 : b.url ∈ (blob_list store ("voices/" ++ v ++ ".")).map (·.url) :=
        List.mem_map.mpr ⟨b, List.mem_filter.mpr ⟨hb.1, hps⟩, rfl⟩
      have hc : ((blob_list store ("voices/" ++ v ++ ".")).map (·.url)).contains b.url = true :=
        List.elem_iff.mpr hmem2
      rw [hb.2] at hc
      cases hc
    refine ⟨by rw [hres], by rw [hres]; exact hgone, ?_⟩
    rw [hres]
    unfold do_GET_voice
    have hlist2 : blob_list
        (blob_delete store ((blob_list store ("voices/" ++ v ++ ".")).map (·.url)))
        ("voices/" ++ v ++ ".") = [] := by
      rw [blob_list, List.filter_eq_nil_iff]
      intro b hb
      simp [hgone b hb]
    simp [hv, hgv, hne, optTruthy, hlist2]

/-- C6 witness: the theorem applied to a concrete store holding an audio and
a metadata object for `alice` — the delete issues one batch call with both
URLs and a subsequent Get returns 404. -/
theorem C6_witness :
    (do_DELETE_voice "" ⟨none, none⟩ true "/api/voices/alice"
        [⟨"voices/alice.wav", "ua", "audio/wav", .str "x"⟩,
         ⟨"voices/alice.json", "um", "application/json", .obj []⟩]).events =
      [Event.listCall ("voices/" ++ "alice" ++ "."),
       Event.deleteCall ((blob_list
          [⟨"voices/alice.wav", "ua", "audio/wav", .str "x"⟩,
           ⟨"voices/alice.json", "um", "application/json", .obj []⟩]
          ("voices/" ++ "alice" ++ ".")).map (·.url))] ∧
    (∀ b ∈ (do_DELETE_voice "" ⟨none, none⟩ true "/api/voices/alice"
        [⟨"voices/alice.wav", "ua", "audio/wav", .str "x"⟩,
         ⟨"voices/alice.json", "um", "application/json", .obj []⟩]).store,
      pyStartswith b.pathname ("voices/" ++ "alice" ++ ".") = false) ∧
    (do_GET_voice "" ⟨none, none⟩ true "/api/voices/alice"
        ((do_DELETE_voice "" ⟨none, none⟩ true "/api/voices/alice"
          [⟨"voices/alice.wav", "ua", "audio/wav", .str "x"⟩,
           ⟨"voices/alice.json", "um", "application/json", .obj []⟩]).store)).resp =
      error_response 404 ("Voice not found: " ++ "alice") :=
  (C6_delete "" ⟨none, none⟩ "/api/voices/alice"
    [⟨"voices/alice.wav", "ua", "audio/wav", .str "x"⟩,
     ⟨"voices/alice.json", "um", "application/json", .obj []⟩] "alice"
    (by decide) (by decide) (by decide)).2 (by decide)

/-! ## C7 -/

/-- C7, counterexample to the claim as stated: with the secret configured and
the request carrying the correct key only in the `api_key` query parameter,
the serverless list handler (a GET endpoint) still denies with 401 — its auth
gate never consults the query string, contradicting the claimed "query
parameter for GET requests" extraction step. Meanwhile the Flask gate
(`require_auth`) accepts the query parameter without any method restriction. -/
theorem C7_counterexample :
    (do_GET_voices "secret" ⟨none, none⟩ (some "secret") true []).resp =
      error_response 401 "Invalid or missing API key" ∧
    require_auth "secret" ⟨none, none⟩ (some "secret") = none :=
  ⟨rfl, rfl⟩

/-- C7 (amended): the gates allow everything when no secret is configured,
and otherwise allow exactly when the extracted candidate equals the secret —
where the serverless extraction (`get_api_key_from_request`) consults
`X-API-Key` then a `Bearer` authorization header only (never the query), and
the Flask extraction (`get_api_key`) additionally falls back to the `api_key`
query parameter for every request method, not just GET. -/
theorem C7_auth_gate :
    ∀ (apiKey : String) (h : Headers) (q : Option String),
      (verify_api_key apiKey h = true ↔
        apiKey = "" ∨ get_api_key_from_request h = some apiKey) ∧
      (require_auth apiKey h q = none ↔
        apiKey = "" ∨ get_api_key h q = some apiKey) := by
  intro apiKey h q
  by_cases hk : apiKey = ""
  · simp [verify_api_key, require_auth, hk]
  · constructor
    · simp [verify_api_key, hk]
    · by_cases hg : get_api_key h q = some apiKey <;> simp [require_auth, hk, hg]

/-- C7 witness: the amended theorem applied at a concrete header set — with
the secret in the `X-API-Key` header, both gates allow. -/
theorem C7_witness :
    (verify_api_key "secret" ⟨some "secret", none⟩ = true ↔
      "secret" = "" ∨ get_api_key_from_request ⟨some "secret", none⟩ = some "secret") ∧
    (require_auth "secret" ⟨some "secret", none⟩ none = none ↔
      "secret" = "" ∨ get_api_key ⟨some "secret", none⟩ none = some "secret") :=
  C7_auth_gate "secret" ⟨some "secret", none⟩ none

/-! ## C8 -/

/-- C8, counterexample to the claim as stated: the Modal variant's auth gate
rejects a missing key with 401 and the message `Invalid API key`, not
`Invalid or missing API key` (and it raises an `HTTPException`, which the
framework serializes, rather than writing an `{"error": ...}` body). -/
theorem C8_counterexample :
    check_auth "secret" ⟨none, none⟩ = some (401, "Invalid API key") ∧
    "Invalid API key" ≠ "Invalid or missing API key" :=
  ⟨rfl, by decide⟩

/-- C8 (amended): every `error_response` body has exactly the shape
`{"error": "<message>"}`; when a secret is configured and the key is missing
or wrong, every serverless handler and the Flask gate return 401 with body
`{"error": "Invalid or missing API key"}`; the Modal gate instead rejects
with 401 and the message `Invalid API key`. -/
theorem C8_error_shape :
    (∀ (status : Nat) (msg : String),
      (error_response status msg).body = Json.obj [("error", Json.str msg)]) ∧
    (∀ (apiKey : String) (h : Headers) (q : Option String) (tok mp : Bool)
       (audio : Option String) (fn : String) (idf nf df : Option String)
       (u now : String) (store : List Blob) (lr : Bool) (p1 p2 : Option String)
       (path : String) (text voiceId audioData : Option String) (tmp : String)
       (infer : InferBehavior) (gradio : Bool),
      verify_api_key apiKey h = false →
      (do_GET_voices apiKey h q tok store).resp =
        error_response 401 "Invalid or missing API key" ∧
      (do_POST_voices apiKey h tok mp audio fn idf nf df u now store lr p1 p2).resp =
        error_response 401 "Invalid or missing API key" ∧
      (do_GET_voice apiKey h tok path store).resp =
        error_response 401 "Invalid or missing API key" ∧
      (do_DELETE_voice apiKey h tok path store).resp =
        error_response 401 "Invalid or missing API key" ∧
      (tts_do_POST apiKey h gradio tok store text voiceId audioData tmp infer).resp =
        .json (error_response 401 "Invalid or missing API key")) ∧
    (∀ (apiKey : String) (h : Headers) (q : Option String),
      apiKey ≠ "" → get_api_key h q ≠ some apiKey →
      require_auth apiKey h q =
        some (error_response 401 "Invalid or missing API key")) ∧
    (∀ (apiKey : String) (h : Headers),
      apiKey ≠ "" →
      (if pyStartswith (h.authorization.getD "") "Bearer "
        then pyDrop (h.authorization.getD "") 7
        else h.xApiKey.getD "") ≠ apiKey →
      check_auth apiKey h = some (401, "Invalid API key")) := by
  refine ⟨fun _ _ => rfl, ?_, ?_, ?_⟩
  · intro apiKey h q tok mp audio fn idf nf df u now store lr p1 p2 path text
      voiceId audioData tmp infer gradio hv
    unfold do_GET_voices do_POST_voices do_GET_voice do_DELETE_voice tts_do_POST
    simp [hv]
  · intro apiKey h q hk hg
    unfold require_auth
    simp [hk, hg]
  · intro apiKey h hk hg
    unfold check_auth
    simp only [hk, if_false, reduceIte, if_neg hg]
    simp [hk, hg]

/-- C8 witness: the amended theorem applied at concrete inputs — a serverless
handler denies a request with no key as 401 `Invalid or missing API key`,
while the Modal gate denies it with 401 `Invalid API key`. -/
theorem C8_witness :
    (do_GET_voices "k" ⟨none, none⟩ none true []).resp =
      error_response 401 "Invalid or missing API key" ∧
    check_auth "k" ⟨none, none⟩ = some (401, "Invalid API key") :=
  ⟨(C8_error_shape.2.1 "k" ⟨none, none⟩ none true true none "" none none none ""
      "" [] false none none "" none none none "" (.noPath) true (by decide)).1,
   C8_error_shape.2.2.2 "k" ⟨none, none⟩ (by decide) (by decide)⟩

/-! ## C9 -/

/-- Sanitization is the identity on strings of decimal digits and lowercase
`a`-`f` characters (the alphabet of the generated uuid-prefix ids). -/
theorem sanitize_voice_id_hex (s : String)
    (hs : ∀ c ∈ s.data,
      (48 ≤ c.toNat ∧ c.toNat ≤ 57) ∨ (97 ≤ c.toNat ∧ c.toNat ≤ 102)) :
    sanitize_voice_id s = s := by
  unfold sanitize_voice_id pyLower
  apply String.ext
  show ((s.data.filter _).map pyLowerChar) = s.data
  have hfilter : s.data.filter
      (fun c => pyIsAlnumChar c || c == '-' || c == '_') = s.data := by
    rw [List.filter_eq_self]
    intro a ha
    simp only [Bool.or_eq_true, pyIsAlnumChar, decide_eq_true_eq, beq_iff_eq]
    rcases hs a ha with h1 | h2
    · exact Or.inl (Or.inl (Or.inl (Or.inl (Or.inl h1))))
    · exact Or.inl (Or.inl (Or.inl (Or.inr ⟨h2.1, by omega⟩)))
  rw [hfilter]
  have hmap : s.data.map pyLowerChar = s.data.map id :=
    List.map_congr_left (fun a ha => by
      rcases hs a ha with h1 | h2 <;>
        · unfold pyLowerChar
          rw [if_neg (by omega)]
          rfl)
  rw [hmap, List.map_id]

/-- C9 (confirmed): a Create request with audio and a name but no id gets an
8-character generated identifier (the first 8 characters of the generated
uuid), a 201 response carrying that id and the supplied name — and with no
name supplied the name defaults to the id. -/
theorem C9_create_generated_id :
    ∀ (apiKey : String) (h : Headers) (audio filename : String)
      (nameField descField : Option String) (genUuid now : String)
      (store : List Blob),
      verify_api_key apiKey h = true →
      8 ≤ genUuid.data.length →
      (∀ c ∈ genUuid.data.take 8,
        (48 ≤ c.toNat ∧ c.toNat ≤ 57) ∨ (97 ≤ c.toNat ∧ c.toNat ≤ 102)) →
      (blob_list store ("voices/" ++ pyTake genUuid 8 ++ ".")).any
        (fun b => pyEndswith b.pathname ".json") = false →
      (do_POST_voices apiKey h true true (some audio) filename none nameField
          descField genUuid now store false none none).resp.status = 201 ∧
      (do_POST_voices apiKey h true true (some audio) filename none nameField
          descField genUuid now store false none none).resp.body =
        .obj [("id", .str (pyTake genUuid 8)),
              ("name", .str (nameField.getD (pyTake genUuid 8))),
              ("created_at", .str now),
              ("message", .str "Voice registered successfully")] ∧
      (pyTake genUuid 8).data.length = 8 := by
  intro apiKey h audio filename nameField descField genUuid now store hv hlen hhex hnoconf
  have hsan : sanitize_voice_id (pyTake genUuid 8) = pyTake genUuid 8 :=
    sanitize_voice_id_hex _ hhex
  have hlen8 : (pyTake genUuid 8).data.length = 8 := by
    simp only [pyTake, List.length_take]
    omega
  have hne : pyTake genUuid 8 ≠ "" := by
    intro heq
    rw [heq] at hlen8
    simp at hlen8
  refine ⟨?_, ?_, hlen8⟩ <;>
    · unfold do_POST_voices
      simp [hv, hsan, hne, hnoconf]

/-- C9 witness: the theorem applied to a concrete generated uuid and an empty
store, with the name `Alice` supplied. -/
theorem C9_witness :
    (do_POST_voices "" ⟨none, none⟩ true true (some "x") "a.wav" none
        (some "Alice") none "a1b2c3d4-e5f6-7890-abcd-ef0123456789" "now" []
        false none none).resp.status = 201 ∧
    (do_POST_voices "" ⟨none, none⟩ true true (some "x") "a.wav" none
        (some "Alice") none "a1b2c3d4-e5f6-7890-abcd-ef0123456789" "now" []
        false none none).resp.body =
      .obj [("id", .str (pyTake "a1b2c3d4-e5f6-7890-abcd-ef0123456789" 8)),
            ("name", .str ((some "Alice").getD
              (pyTake "a1b2c3d4-e5f6-7890-abcd-ef0123456789" 8))),
            ("created_at", .str "now"),
            ("message", .str "Voice registered successfully")] ∧
    (pyTake "a1b2c3d4-e5f6-7890-abcd-ef0123456789" 8).data.length = 8 :=
  C9_create_generated_id "" ⟨none, none⟩ "x" "a.wav" (some "Alice") none
    "a1b2c3d4-e5f6-7890-abcd-ef0123456789" "now" []
    (by decide) (by decide) (by decide) (by decide)

/-! ## C10 -/

/-- The blob just uploaded by `blob_put` is a member of the resulting store,
at its pathname and with its content. -/
theorem blob_put_new_mem (store : List Blob) (path : String) (content : Json)
    (ctype : String) :
    ∃ b ∈ blob_put store path content ctype,
      b.pathname = path ∧ b.content = content := by
  refine ⟨⟨path, blobUrl path, ctype, content⟩, ?_, rfl, rfl⟩
  simp [blob_put]

/-- C10 (confirmed, implicit behaviour): when the duplicate-check listing
raises, the exception is swallowed and creation proceeds — even though a
metadata object for the same id already exists in the store, the request
returns 201, uploads both the audio and the metadata object, and afterwards
the metadata stored at the id's pathname is the newly created one (the
existing voice is overwritten rather than the request returning 409). -/
theorem C10_conflict_check_best_effort :
    ∀ (apiKey : String) (h : Headers) (audio filename : String)
      (idField nameField descField : Option String) (genUuid now : String)
      (store : List Blob) (mb : Blob) (sid : String),
      verify_api_key apiKey h = true →
      sanitize_voice_id (idField.getD (pyTake genUuid 8)) = sid → sid ≠ "" →
      mb ∈ store → mb.pathname = "voices/" ++ sid ++ ".json" →
      (do_POST_voices apiKey h true true (some audio) filename idField nameField
          descField genUuid now store true none none).resp.status = 201 ∧
      (∃ ext, (do_POST_voices apiKey h true true (some audio) filename idField
          nameField descField genUuid now store true none none).events =
        [Event.listCall ("voices/" ++ sid ++ "."),
         Event.putCall ("voices/" ++ sid ++ "." ++ ext),
         Event.putCall ("voices/" ++ sid ++ ".json")]) ∧
      (∀ b ∈ (do_POST_voices apiKey h true true (some audio) filename idField
          nameField descField genUuid now store true none none).store,
        b.pathname = "voices/" ++ sid ++ ".json" →
        b.content.getField "created_at" = some (.str now)) ∧
      (∃ b ∈ (do_POST_voices apiKey h true true (some audio) filename idField
          nameField descField genUuid now store true none none).store,
        b.pathname = "voices/" ++ sid ++ ".json" ∧
        b.content.getField "created_at" = some (.str now)) := by
  intro apiKey h audio filename idField nameField descField genUuid now store
    mb sid hv hsid hne hmem hpath
  refine ⟨?_, ?_, ?_, ?_⟩
  · unfold do_POST_voices
    simp [hv, hsid, hne]
  · unfold do_POST_voices
    simp [hv, hsid, hne]
  · unfold do_POST_voices
    simp [hv, hsid, hne]
    intro b hb hbp
    simp only [blob_put, List.mem_append, List.mem_filter, List.mem_singleton,
      decide_eq_true_eq] at hb
    rcases hb with ⟨_, hneq⟩ | rfl
    · exact absurd hbp hneq
    · simp [Json.getField, List.lookup]
  · unfold do_POST_voices
    simp [hv, hsid, hne]
    obtain ⟨b, hbm, hbp, hbc⟩ := blob_put_new_mem _ ("voices/" ++ sid ++ ".json")
      _ "application/json"
    exact ⟨b, hbm, hbp, by rw [hbc]; simp [Json.getField, List.lookup]⟩

/-- C10 witness: the theorem applied to a store already holding a metadata
object for `alice` (with an old `created_at`), with the listing raising: the
request still returns 201, uploads both objects, and the metadata stored at
`voices/alice.json` afterwards carries the new timestamp. -/
theorem C10_witness :
    (do_POST_voices "" ⟨none, none⟩ true true (some "x") "a.wav" (some "alice")
        none none "u" "now"
        [⟨"voices/alice.json", "u2", "application/json",
          .obj [("created_at", .str "old")]⟩] true none none).resp.status = 201 ∧
    (∃ ext, (do_POST_voices "" ⟨none, none⟩ true true (some "x") "a.wav" (some "alice")
        none none "u" "now"
        [⟨"voices/alice.json", "u2", "application/json",
          .obj [("created_at", .str "old")]⟩] true none none).events =
      [Event.listCall ("voices/" ++ "alice" ++ "."),
       Event.putCall ("voices/" ++ "alice" ++ "." ++ ext),
       Event.putCall ("voices/" ++ "alice" ++ ".json")]) ∧
    (∀ b ∈ (do_POST_voices "" ⟨none, none⟩ true true (some "x") "a.wav" (some "alice")
        none none "u" "now"
        [⟨"voices/alice.json", "u2", "application/json",
          .obj [("created_at", .str "old")]⟩] true none none).store,
      b.pathname = "voices/" ++ "alice" ++ ".json" →
      b.content.getField "created_at" = some (.str "now")) ∧
    (∃ b ∈ (do_POST_voices "" ⟨none, none⟩ true true (some "x") "a.wav" (some "alice")
        none none "u" "now"
        [⟨"voices/alice.json", "u2", "application/json",
          .obj [("created_at", .str "old")]⟩] true none none).store,
      b.pathname = "voices/" ++ "alice" ++ ".json" ∧
      b.content.getField "created_at" = some (.str "now")) :=
  C10_conflict_check_best_effort "" ⟨none, none⟩ "x" "a.wav" (some "alice") none
    none "u" "now"
    [⟨"voices/alice.json", "u2", "application/json", .obj [("created_at", .str "old")]⟩]
    ⟨"voices/alice.json", "u2", "application/json", .obj [("created_at", .str "old")]⟩
    "alice" (by decide) (by decide) (by decide) (List.mem_singleton.mpr rfl) (by decide)

end EchoTTS
